import Mathlib

/-!
Shallow embedding of the session and identity core of the Forum-Project
repository (Go sources `datahandlers/database.go` and
`homehandlers/handlers.go`).

The session store (SQL table `sessions(id TEXT PRIMARY KEY, user_id, expiry)`)
is modelled as a list of `Session` rows; SQL statements become list
operations.  Time instants (Go `time.Time` / `UnixNano`) are integers.
Outbound HTTP calls (OAuth token exchange, provider user-info endpoints) and
random draws (`generateRandomString`, `uuid.New`) are passed in as explicit
oracle arguments, so each handler is a pure function from its inputs and the
store to a response and an updated store.
-/

namespace Forum

/-- A row of the `sessions` table: `datahandlers.Session` — token `id`,
owning `userID`, and `expiry` timestamp (integer instants). -/
structure Session where
  id : String
  userID : Int
  expiry : Int
deriving DecidableEq, Repr

/-- A row of the `users` table: numeric id, unique email, optional username
and password hash (`sql.NullString`), role (defaults to `"user"`). -/
structure UserRow where
  id : Int
  email : String
  username : Option String
  password : Option String
  role : String
deriving DecidableEq, Repr

/-- The sliding session lifetime: `10 * time.Minute` in nanoseconds. -/
def tenMinutes : Int := 10 * 60 * 1000000000

/-- Models `strings.ToLower(strings.ReplaceAll(name, " ", ""))` — the display-name
munging shared by all federated username derivations, at character level. -/
def lowerNoSpaces (s : String) : String :=
  String.mk ((s.toList.filter (fun c => !(c == ' '))).map Char.toLower)

/-- The token minted by `homehandlers.createSession`:
`fmt.Sprintf("session-%d-%d", userID, time.Now().UnixNano())`. -/
def sessionTokenFor (userID nowNano : Int) : String :=
  "session-" ++ toString userID ++ "-" ++ toString nowNano

/-- Model of `homehandlers.createSession`: formats the token from the user id and the
current nanosecond clock, then executes
`INSERT INTO sessions (id, user_id, expiry) VALUES (?, ?, ?)` with expiry
`now + 10min`.  Returns the token and the updated store.  No other row of the
`sessions` table is touched. -/
def createSession (st : List Session) (userID : Int) (now : Int) :
    String × List Session :=
  let tok := sessionTokenFor userID now
  (tok, st ++ [{ id := tok, userID := userID, expiry := now + tenMinutes }])

/-- The four outcomes of `datahandlers.GetSession`:
`noSession` is `nil, nil` (cookie missing), `ok s` is `&session, nil`,
`errNoRows` is `nil, sql.ErrNoRows` (token not in the table), and
`errExpired` is `nil, fmt.Errorf("session expired")`. -/
inductive GetSessionResult where
  | noSession
  | ok (s : Session)
  | errNoRows
  | errExpired
deriving DecidableEq, Repr

/-- Model of `datahandlers.GetSession`: reads the `session_token` cookie (here an
`Option String`); a missing cookie is `noSession`.  Otherwise
`SELECT id, user_id, expiry FROM sessions WHERE id = ?`; a missing row
propagates `sql.ErrNoRows`.  A row with `expiry.Before(now)` (strict `<`)
is the "session expired" error.  A live row triggers
`DELETE FROM sessions WHERE user_id = ? AND id <> ?` followed by
`UPDATE sessions SET expiry = now+10min WHERE id = ?`, and the refreshed
session is returned. -/
def GetSession (st : List Session) (cookie : Option String) (now : Int) :
    GetSessionResult × List Session :=
  match cookie with
  | none => (.noSession, st)
  | some tok =>
    match st.find? (fun s => s.id == tok) with
    | none => (.errNoRows, st)
    | some s =>
      if s.expiry < now then (.errExpired, st)
      else
        let newExpiry := now + tenMinutes
        let st1 := st.filter (fun r => !(r.userID == s.userID && !(r.id == tok)))
        let st2 := st1.map (fun r =>
          if r.id == tok then { r with expiry := newExpiry } else r)
        (.ok { s with expiry := newExpiry }, st2)

example :
    GetSession [⟨"t", 1, 100⟩] (some "t") 50 =
      (.ok ⟨"t", 1, 50 + tenMinutes⟩, [⟨"t", 1, 50 + tenMinutes⟩]) := by
  decide

example : GetSession [⟨"t", 1, 100⟩] (some "t") 100 =
    (.ok ⟨"t", 1, 100 + tenMinutes⟩, [⟨"t", 1, 100 + tenMinutes⟩]) := by decide

example : GetSession [⟨"t", 1, 50⟩] (some "t") 100 = (.errExpired, [⟨"t", 1, 50⟩]) := by
  decide

example : GetSession [] (some "ghost") 0 = (.errNoRows, []) := by decide

/-- Abstraction of what a handler writes back: a redirect, an HTTP error
(500 / 401), or a rendered template with its error message / flags. -/
inductive HttpResponse where
  | redirect (url : String)
  | serverError (msg : String)
  | unauthorized (msg : String)
  | loginPage (errMsg : String)
  | registerPage (emailErr : String)
  | homePage (loggedIn isAdmin : Bool)
deriving DecidableEq, Repr

/-- Model of `homehandlers.checkIfBanned`:
`SELECT EXISTS(SELECT 1 FROM banned_users WHERE email = ?)`, the
`banned_users` table being a list of emails. -/
def checkIfBanned (banned : List String) (email : String) : Bool :=
  banned.contains email

/-- Model of `homehandlers.CheckIfAdmin`: looks up the user's role;
`sql.ErrNoRows` resolves to `false`. -/
def CheckIfAdmin (users : List UserRow) (userID : Int) : Bool :=
  match users.find? (fun u => u.id == userID) with
  | none => false
  | some u => u.role == "admin"

/-- Model of `homehandlers.HomeHandler`, restricted to its authentication
behaviour: any non-nil `GetSession` error (including "session expired" and
`sql.ErrNoRows`) is answered with HTTP 500 "Internal server error"; a nil
session renders the anonymous home page; a live session renders the
logged-in home page with the admin flag from `CheckIfAdmin`. -/
def HomeHandler (users : List UserRow) (st : List Session)
    (cookie : Option String) (now : Int) : HttpResponse × List Session :=
  let res := GetSession st cookie now
  match res.1 with
  | .noSession => (.homePage false false, res.2)
  | .ok s => (.homePage true (CheckIfAdmin users s.userID), res.2)
  | .errNoRows => (.serverError "Internal server error", res.2)
  | .errExpired => (.serverError "Internal server error", res.2)

/-- Model of `homehandlers.LoginHandler`.  Oracles: `verify hash pw` stands
for `bcrypt.CompareHashAndPassword` succeeding, `uuidTok` for
`uuid.New().String()`, `exchangeOk`/`googleInfo` for the outcome of the
Google token exchange and user-info fetch.  The handler first calls
`GetSession`; a live session redirects to `/`.  On POST it then checks
`checkIfBanned(email)` BEFORE branching on `google_oauth` and before any
credential lookup; a banned email renders the login template with the ban
message.  The local branch looks up `id, password` by email (a NULL
password fails the `Scan` into a Go string), verifies with bcrypt, and on
success inserts a session row with a fresh UUID token directly. -/
def LoginHandler (users : List UserRow) (banned : List String)
    (st : List Session) (cookie : Option String) (isPost : Bool)
    (email password : String) (googleOAuth : Bool)
    (verify : String → String → Bool) (uuidTok : String)
    (exchangeOk : Bool) (googleInfo : Option (String × String))
    (now : Int) : HttpResponse × List Session :=
  let pre := GetSession st cookie now
  match pre.1 with
  | .ok _ => (.redirect "/", pre.2)
  | _ =>
    if isPost then
      if checkIfBanned banned email then
        (.loginPage "Bu kullanici banlanmis.", pre.2)
      else if googleOAuth then
        if !exchangeOk then (.serverError "Failed to exchange token", pre.2)
        else
          match googleInfo with
          | none => (.serverError "Failed to get user info from Google", pre.2)
          | some (gEmail, _) =>
            -- getGoogleUserByEmail: SELECT id FROM users WHERE email = ? AND
            -- password IS NULL; sql.ErrNoRows returns (0, nil), so a missing
            -- user falls through and a session is created for user id 0
            let userID :=
              match users.find? (fun u => u.email == gEmail && u.password == none) with
              | some u => u.id
              | none => 0
            let cs := createSession pre.2 userID now
            (.redirect "/myprofil", cs.2)
      else
        match users.find? (fun u => u.email == email) with
        | none => (.loginPage "Gecersiz e-posta veya sifre", pre.2)
        | some u =>
          match u.password with
          | none => (.serverError "Internal server error", pre.2)
          | some hash =>
            if !(verify hash password) then
              (.loginPage "Gecersiz e-posta veya sifre", pre.2)
            else
              (.redirect "/", pre.2 ++ [⟨uuidTok, u.id, now + tenMinutes⟩])
    else (.loginPage "", pre.2)

/-- Outcome of `homehandlers.registerUser`: a normal error return, a Go
`panic` (raised by `registerError`), or a successful registration. -/
inductive RegisterOutcome where
  | panicked (msg : String)
  | failed (msg : String)
  | success
deriving DecidableEq, Repr

/-- Model of `homehandlers.registerUser`.  Steps of the source: (1) reject
when the email already has a user row ("user already exists"); (2) on the
`google_oauth` branch, exchange the code, fetch email and display name and
derive `lowerNoSpaces name ++ "_" ++ tag` (the 5-character random tag is
the `generateRandomString 5` oracle); (3) on the normal branch, a positive
`SELECT COUNT(*) ... WHERE username = ?` calls `registerError`, which is
`panic("unimplemented")` — the `return fmt.Errorf("username already
exists")` after it is unreachable; then the password is validated
(`required,min=6`) and bcrypt-hashed (`hash` oracle); (4) `saveUser`
inserts the row and `createSession(int64(user.ID))` runs with `user.ID`
still the Go zero value 0, since `saveUser` never reads back the
auto-assigned id. -/
def registerUser (users : List UserRow) (st : List Session)
    (email : String) (googleOAuth : Bool) (formUsername formPassword : String)
    (exchangeOk : Bool) (googleInfo : Option (String × String)) (tag : String)
    (hash : String → String) (nextId : Int) (now : Int) :
    RegisterOutcome × List UserRow × List Session :=
  if (users.find? (fun u => u.email == email)).isSome then
    (.failed "user already exists", users, st)
  else if googleOAuth then
    if !exchangeOk then (.failed "oauth exchange failed", users, st)
    else
      match googleInfo with
      | none => (.failed "userinfo fetch failed", users, st)
      | some (gEmail, name) =>
        let username := lowerNoSpaces name ++ "_" ++ tag
        let users1 := users ++ [⟨nextId, gEmail, some username, none, "user"⟩]
        let cs := createSession st 0 now
        (.success, users1, cs.2)
  else
    if users.any (fun u => u.username == some formUsername) then
      (.panicked "unimplemented", users, st)
    else if formPassword.length < 6 then
      (.failed "password validation failed", users, st)
    else
      let users1 :=
        users ++ [⟨nextId, email, some formUsername, some (hash formPassword), "user"⟩]
      let cs := createSession st 0 now
      (.success, users1, cs.2)

/-- Model of `homehandlers.HandleGoogleCallback`.  The first statement
compares `r.FormValue("state")` against the package-level
`oauthStateStringGoogle` nonce and redirects to `/` on mismatch, before the
token exchange.  The last component of the result records whether
`googleOauthConfig.Exchange` was reached.  On the `registering` branch the
derived username is `lowerNoSpaces name` — no random tag is appended on
this path. -/
def HandleGoogleCallback (nonce : String) (registering : Bool)
    (users : List UserRow) (st : List Session) (presentedState : String)
    (exchangeOk : Bool) (userInfo : Option (String × String))
    (nextId : Int) (now : Int) :
    HttpResponse × List UserRow × List Session × Bool :=
  if presentedState != nonce then (.redirect "/", users, st, false)
  else if !exchangeOk then
    (.serverError "Token degisimi basarisiz oldu.", users, st, true)
  else
    match userInfo with
    | none => (.serverError "Google kullanici bilgileri alinamadi.", users, st, true)
    | some (email, name) =>
      let username := lowerNoSpaces name
      if registering then
        match users.find? (fun u => u.email == email) with
        | some _ => (.registerPage "Bu Email zaten kayitli.", users, st, true)
        | none =>
          let users1 := users ++ [⟨nextId, email, some username, none, "user"⟩]
          let cs := createSession st nextId now
          (.redirect "/myprofil", users1, cs.2, true)
      else
        match users.find? (fun u => u.email == email) with
        | none =>
          (.unauthorized "Kullanici bulunamadi. Lutfen once kaydolun.", users, st, true)
        | some u =>
          let cs := createSession st u.id now
          (.redirect "/", users, cs.2, true)

/-- Model of `homehandlers.HandleGitHubCallback`: no state check; the
derived username is `lowerNoSpaces name ++ "_" ++ tag` with a 5-character
random tag; otherwise the register/login branching mirrors the Google
callback. -/
def HandleGitHubCallback (registering : Bool) (users : List UserRow)
    (st : List Session) (exchangeOk : Bool)
    (userInfo : Option (String × String)) (tag : String)
    (nextId : Int) (now : Int) : HttpResponse × List UserRow × List Session :=
  if !exchangeOk then (.serverError "Failed to exchange token", users, st)
  else
    match userInfo with
    | none => (.serverError "Failed to get user info from GitHub", users, st)
    | some (email, name) =>
      let username := lowerNoSpaces name ++ "_" ++ tag
      if registering then
        match users.find? (fun u => u.email == email) with
        | some _ => (.registerPage "Bu Email zaten kayitli.", users, st)
        | none =>
          let users1 := users ++ [⟨nextId, email, some username, none, "user"⟩]
          let cs := createSession st nextId now
          (.redirect "/myprofil", users1, cs.2)
      else
        match users.find? (fun u => u.email == email) with
        | none =>
          (.unauthorized "Kullanici bulunamadi. Lutfen once kaydolun.", users, st)
        | some u =>
          let cs := createSession st u.id now
          (.redirect "/", users, cs.2)

/-- Model of `homehandlers.HandleFacebookCallback`: no state check and no
`registering` branch; `getOrCreateUser` resolves an existing email to its
user id and otherwise inserts a new row with username
`lowerNoSpaces name ++ "_" ++ tag`; then a session is created and the
request redirected to `/myprofil`. -/
def HandleFacebookCallback (users : List UserRow) (st : List Session)
    (exchangeOk : Bool) (userInfo : Option (String × String)) (tag : String)
    (nextId : Int) (now : Int) : HttpResponse × List UserRow × List Session :=
  if !exchangeOk then (.serverError "Failed to exchange token", users, st)
  else
    match userInfo with
    | none => (.serverError "Failed to get user info from Facebook", users, st)
    | some (email, name) =>
      let username := lowerNoSpaces name ++ "_" ++ tag
      match users.find? (fun u => u.email == email) with
      | some u =>
        let cs := createSession st u.id now
        (.redirect "/myprofil", users, cs.2)
      | none =>
        let users1 := users ++ [⟨nextId, email, some username, none, "user"⟩]
        let cs := createSession st nextId now
        (.redirect "/myprofil", users1, cs.2)

/-- One entry of the GitHub `/user/emails` response. -/
structure GitHubEmail where
  email : String
  primary : Bool
  verified : Bool
deriving DecidableEq, Repr

/-- The selection loop of `getEmailAndNameFromGitHub`: starting from the
empty email, take the first entry with `primary && verified` and break. -/
def pickPrimaryVerified : List GitHubEmail → String → String
  | [], acc => acc
  | e :: rest, acc =>
    if e.primary && e.verified then e.email else pickPrimaryVerified rest acc

/-- Model of `homehandlers.getEmailAndNameFromGitHub`.  `primaryResp` is
the decoded `https://api.github.com/user` response (none = transport or
decode failure), `emailsResp` the decoded `/user/emails` response.  The
`Nat` in the result counts calls made to the secondary `/user/emails`
endpoint: the fallback runs exactly when the primary response carries an
empty email. -/
def getEmailAndNameFromGitHub (primaryResp : Option (String × String))
    (emailsResp : Option (List GitHubEmail)) :
    Except String ((String × String) × Nat) :=
  match primaryResp with
  | none => .error "user endpoint failed"
  | some (email, name) =>
    if email == "" then
      match emailsResp with
      | none => .error "emails endpoint failed"
      | some emails => .ok ((pickPrimaryVerified emails "", name), 1)
    else .ok ((email, name), 0)

/-! ### Helper lemmas on list-modelled tables -/

lemma filter_map_of_pred_invariant {α : Type} (f : α → α) (p : α → Bool)
    (hf : ∀ a, p (f a) = p a) (l : List α) :
    (l.map f).filter p = (l.filter p).map f := by
  induction l with
  | nil => rfl
  | cons a t ih =>
    by_cases h : p a = true
    · simp [List.filter_cons, hf, h, ih]
    · rw [Bool.not_eq_true] at h
      simp [List.filter_cons, hf, h, ih]

lemma length_filter_le_of_imp {α : Type} (p q : α → Bool)
    (h : ∀ a, p a = true → q a = true) (l : List α) :
    (l.filter p).length ≤ (l.filter q).length := by
  induction l with
  | nil => simp
  | cons a t ih =>
    by_cases hp : p a = true
    · simp [List.filter_cons, hp, h a hp]
      exact ih
    · rw [Bool.not_eq_true] at hp
      by_cases hq : q a = true
      · simp [List.filter_cons, hp, hq]
        exact le_trans ih (Nat.le_succ _)
      · rw [Bool.not_eq_true] at hq
        simpa [List.filter_cons, hp, hq] using ih

lemma filter_filter_and {α : Type} (p q : α → Bool) (l : List α) :
    (l.filter q).filter p = l.filter (fun a => q a && p a) := by
  induction l with
  | nil => rfl
  | cons a t ih =>
    by_cases hq : q a = true
    · by_cases hp : p a = true
      · simp [List.filter_cons, hq, hp, ih]
      · rw [Bool.not_eq_true] at hp
        simp [List.filter_cons, hq, hp, ih]
    · rw [Bool.not_eq_true] at hq
      simp [List.filter_cons, hq, ih]

lemma filter_id_eq_nil_of_not_mem (tok : String) (l : List Session)
    (h : tok ∉ l.map Session.id) :
    l.filter (fun r => r.id == tok) = [] := by
  induction l with
  | nil => rfl
  | cons a t ih =>
    simp only [List.map_cons, List.mem_cons, not_or] at h
    have ha : (a.id == tok) = false := by
      simp [Ne.symm h.1]
    simp [List.filter_cons, ha, ih h.2]

lemma length_filter_id_le_one (tok : String) (l : List Session)
    (h : (l.map Session.id).Nodup) :
    (l.filter (fun r => r.id == tok)).length ≤ 1 := by
  induction l with
  | nil => simp
  | cons a t ih =>
    simp only [List.map_cons, List.nodup_cons] at h
    by_cases hid : a.id = tok
    · have hnm : tok ∉ t.map Session.id := hid ▸ h.1
      simp [List.filter_cons, hid, filter_id_eq_nil_of_not_mem tok t hnm]
    · have ha : (a.id == tok) = false := by simp [hid]
      simpa [List.filter_cons, ha] using ih h.2

/-! ### Claim theorems -/

/-- C2 (confirmed).  For a stored session whose expiry is strictly in the
future, `GetSession` returns the session with its expiry extended to
now+10 minutes, and afterwards at most one row of the `sessions` table
belongs to that session's user (all sibling tokens of the same user are
deleted).  The token-uniqueness hypothesis mirrors the `id TEXT PRIMARY
KEY` constraint of the table. -/
theorem GetSession_live_refresh_single_session
    (st : List Session) (tok : String) (s : Session) (now : Int)
    (hfind : st.find? (fun r => r.id == tok) = some s)
    (hlive : now < s.expiry)
    (hids : (st.map Session.id).Nodup) :
    (GetSession st (some tok) now).1 = .ok ⟨tok, s.userID, now + tenMinutes⟩ ∧
    ((GetSession st (some tok) now).2.filter
        (fun r => r.userID == s.userID)).length ≤ 1 := by
  obtain ⟨sid, suid, sexp⟩ := s
  have hsid : sid = tok := by
    have := List.find?_some hfind
    simpa using this
  subst hsid
  have hnotlt : ¬ sexp < now := not_lt.mpr (le_of_lt hlive)
  constructor
  · simp [GetSession, hfind, hnotlt]
  · simp only [GetSession, hfind, hnotlt, if_false]
    set f : Session → Session :=
      fun r => if r.id == sid then { r with expiry := now + tenMinutes } else r with hf
    set p : Session → Bool := fun r => r.userID == suid with hp
    set q : Session → Bool :=
      fun r => !(r.userID == suid && !(r.id == sid)) with hq
    have hpf : ∀ r, p (f r) = p r := by
      intro r
      simp only [hf, hp]
      split <;> rfl
    have hstep1 : ((st.filter q).map f).filter p = ((st.filter q).filter p).map f :=
      filter_map_of_pred_invariant f p hpf _
    have hstep2 : (st.filter q).filter p = st.filter (fun r => q r && p r) :=
      filter_filter_and p q st
    have himp : ∀ r : Session, (q r && p r) = true → (r.id == sid) = true := by
      intro r hr
      by_cases hid : (r.id == sid) = true
      · exact hid
      · rw [Bool.not_eq_true] at hid
        simp [hq, hp, hid] at hr
    calc (((st.filter q).map f).filter p).length
        = (((st.filter q).filter p).map f).length := by rw [hstep1]
      _ = ((st.filter q).filter p).length := List.length_map _ _
      _ = (st.filter (fun r => q r && p r)).length := by rw [hstep2]
      _ ≤ (st.filter (fun r => r.id == sid)).length :=
          length_filter_le_of_imp _ _ himp st
      _ ≤ 1 := length_filter_id_le_one sid st hids

/-- Witness for C2 at a concrete store: one session for user 1 whose expiry
100 lies strictly after now = 50. -/
theorem GetSession_live_refresh_single_session_witness :
    (GetSession [⟨"t", 1, 100⟩] (some "t") 50).1 = .ok ⟨"t", 1, 50 + tenMinutes⟩ ∧
    ((GetSession [⟨"t", 1, 100⟩] (some "t") 50).2.filter
        (fun r => r.userID == 1)).length ≤ 1 :=
  GetSession_live_refresh_single_session [⟨"t", 1, 100⟩] "t" ⟨"t", 1, 100⟩ 50
    (by decide) (by decide) (by decide)

/-- C1, counterexample.  `createSession` called twice for user 1 (at
instants 0 and 5) leaves TWO live sessions for that user at now = 5, not
one: `createSession` performs only an `INSERT` and never deletes the
user's other sessions. -/
theorem createSession_twice_two_live_sessions :
    (((createSession (createSession [] 1 0).2 1 5).2).filter
        (fun s => s.userID == 1 && decide ((5 : Int) < s.expiry))).length = 2 := by
  decide

/-- C1, amended.  `createSession` inserts exactly one new row — token
`session-<uid>-<now>`, expiry now+10 minutes — and removes no existing
session; the single-session invariant is only restored later, when
`GetSession` validates a token and deletes the user's sibling rows. -/
theorem createSession_inserts_without_eviction
    (st : List Session) (userID now : Int) :
    st.Sublist (createSession st userID now).2 ∧
    (createSession st userID now).2.length = st.length + 1 ∧
    (⟨sessionTokenFor userID now, userID, now + tenMinutes⟩ : Session) ∈
      (createSession st userID now).2 := by
  refine ⟨?_, ?_, ?_⟩ <;> simp [createSession]

/-- C3, counterexample.  A presented token that is absent from the session
store makes `GetSession` return the `sql.ErrNoRows` lookup error, not the
"no session" absence value: absence is reported only for a missing cookie. -/
theorem GetSession_unknown_token_errors :
    GetSession [] (some "ghost") 0 = (.errNoRows, []) ∧
    GetSessionResult.errNoRows ≠ GetSessionResult.noSession := by
  decide

/-- C3, amended.  `GetSession` returns "no session" as absence (nil
session, nil error) exactly when the request carries no `session_token`
cookie; a cookie whose token has no row in the store surfaces as the
store's `sql.ErrNoRows` error instead, so callers see unknown tokens as
lookup failures. -/
theorem GetSession_absence_only_for_missing_cookie
    (st : List Session) (tok : String) (now : Int)
    (h : st.find? (fun s => s.id == tok) = none) :
    GetSession st none now = (.noSession, st) ∧
    GetSession st (some tok) now = (.errNoRows, st) := by
  exact ⟨rfl, by simp [GetSession, h]⟩

/-- Witness for C3's amended theorem: empty store, unknown token. -/
theorem GetSession_absence_only_for_missing_cookie_witness :
    GetSession [] none 0 = (.noSession, []) ∧
    GetSession [] (some "ghost") 0 = (.errNoRows, []) :=
  GetSession_absence_only_for_missing_cookie [] "ghost" 0 (by decide)

/-- C4, counterexample.  Left: a session whose stored expiry equals now is
treated as live (refreshed), not `Expired` — `expiry.Before(now)` is a
strict comparison, so the claim's `expiry <= now` boundary fails.  Right:
for a genuinely expired session, `HomeHandler` answers HTTP 500 "Internal
server error" instead of treating the caller as anonymous. -/
theorem expired_boundary_and_home_500 :
    (GetSession [⟨"t", 1, 100⟩] (some "t") 100).1 =
      .ok ⟨"t", 1, 100 + tenMinutes⟩ ∧
    (HomeHandler [] [⟨"t", 1, 50⟩] (some "t") 100).1 =
      .serverError "Internal server error" := by
  decide

/-- C4, amended.  For a stored session with expiry strictly before now,
`GetSession` reports the "session expired" failure (distinct from
"no session"), and `HomeHandler` turns that failure into an HTTP 500
response — it does not treat the request as anonymous.  A stored expiry
equal to now is treated as live. -/
theorem GetSession_expired_error_and_home_500
    (users : List UserRow) (st : List Session) (tok : String) (s : Session)
    (now : Int)
    (hfind : st.find? (fun r => r.id == tok) = some s)
    (hexp : s.expiry < now) :
    GetSession st (some tok) now = (.errExpired, st) ∧
    (HomeHandler users st (some tok) now).1 =
      .serverError "Internal server error" := by
  have h1 : GetSession st (some tok) now = (.errExpired, st) := by
    simp [GetSession, hfind, hexp]
  exact ⟨h1, by simp [HomeHandler, h1]⟩

/-- Witness for C4's amended theorem: session expired at 50, request at 100. -/
theorem GetSession_expired_error_and_home_500_witness :
    GetSession [⟨"t", 1, 50⟩] (some "t") 100 = (.errExpired, [⟨"t", 1, 50⟩]) ∧
    (HomeHandler [] [⟨"t", 1, 50⟩] (some "t") 100).1 =
      .serverError "Internal server error" :=
  GetSession_expired_error_and_home_500 [] [⟨"t", 1, 50⟩] "t" ⟨"t", 1, 50⟩ 100
    (by decide) (by decide)

/-- C5 (confirmed).  A Google callback whose `state` differs from the
issued nonce is rejected before anything else happens: the token exchange
is never reached (flag `false`), the users table and the session store are
unchanged, and the response is a redirect to the anonymous home page `/`. -/
theorem GoogleCallback_state_mismatch_rejects
    (nonce : String) (registering : Bool) (users : List UserRow)
    (st : List Session) (presentedState : String) (exchangeOk : Bool)
    (userInfo : Option (String × String)) (nextId now : Int)
    (h : presentedState ≠ nonce) :
    HandleGoogleCallback nonce registering users st presentedState exchangeOk
      userInfo nextId now = (.redirect "/", users, st, false) := by
  have hb : (presentedState != nonce) = true := bne_iff_ne.mpr h
  simp [HandleGoogleCallback, hb]

/-- Witness for C5: concrete mismatching state. -/
theorem GoogleCallback_state_mismatch_rejects_witness :
    HandleGoogleCallback "nonce123" true [] [] "forged" true
      (some ("a@x.com", "Mallory")) 1 0 = (.redirect "/", [], [], false) :=
  GoogleCallback_state_mismatch_rejects "nonce123" true [] [] "forged" true
    (some ("a@x.com", "Mallory")) 1 0 (by decide)

/-- C6, counterexample.  The session token for user 7 at clock instant
1234 is literally the string `session-7-1234`: an observer who knows the
user id and the request time computes the token outright, so the token is
not unpredictable. -/
theorem session_token_computable_from_uid_time :
    (createSession [] 7 1234).1 = "session-7-1234" := by
  decide

/-- C6, amended.  The token minted by `createSession` is the deterministic
concatenation `session-<userID>-<unixNano>`: it depends on nothing but the
user id and the clock (in particular not on any random source or on the
store), so anyone knowing both can derive it. -/
theorem session_token_deterministic (st st' : List Session) (userID now : Int) :
    (createSession st userID now).1 = (createSession st' userID now).1 ∧
    (createSession st userID now).1 =
      "session-" ++ toString userID ++ "-" ++ toString now :=
  ⟨rfl, rfl⟩

lemma GetSession_snd_eq_of_not_ok (st : List Session) (cookie : Option String)
    (now : Int) (h : ∀ s, (GetSession st cookie now).1 ≠ .ok s) :
    (GetSession st cookie now).2 = st := by
  cases cookie with
  | none => rfl
  | some tok =>
    cases hf : st.find? (fun s => s.id == tok) with
    | none => simp [GetSession, hf]
    | some s =>
      by_cases he : s.expiry < now
      · simp [GetSession, hf, he]
      · exact absurd (show (GetSession st (some tok) now).1 =
            .ok { s with expiry := now + tenMinutes } by
          simp [GetSession, hf, he]) (h _)

/-- C7 (code bug).  With a user row already holding username `alice`, a
normal registration for a fresh email but the same username reaches
`registerError`, which is `panic("unimplemented")`: the handler panics
instead of surfacing the duplicate-username message, and the user and
session tables are left untouched.  The actionable-message path in
`RegisterHandler` ("username already exists") is unreachable. -/
theorem registerUser_duplicate_username_panics :
    registerUser [⟨1, "a@x.com", some "alice", some "hash", "user"⟩] []
      "new@x.com" false "alice" "secret1" true none "tg" (fun p => p) 2 0 =
    (.panicked "unimplemented",
      [⟨1, "a@x.com", some "alice", some "hash", "user"⟩], []) := by
  decide

/-- C8 (confirmed).  A POST login for an email present in the banned table
is rejected with the ban message before any credential check: the outcome
is the same for every password and every bcrypt-verification oracle (even
one that accepts everything), and the session store is left unchanged, so
no session is created.  The request is assumed not to carry an already
live session (otherwise `LoginHandler` redirects away before reading the
form). -/
theorem LoginHandler_banned_blocks_login
    (users : List UserRow) (banned : List String) (st : List Session)
    (cookie : Option String) (email password : String) (googleOAuth : Bool)
    (verify : String → String → Bool) (uuidTok : String) (exchangeOk : Bool)
    (googleInfo : Option (String × String)) (now : Int)
    (hanon : ∀ s, (GetSession st cookie now).1 ≠ .ok s)
    (hban : email ∈ banned) :
    LoginHandler users banned st cookie true email password googleOAuth verify
      uuidTok exchangeOk googleInfo now =
    (.loginPage "Bu kullanici banlanmis.", st) := by
  have hsnd := GetSession_snd_eq_of_not_ok st cookie now hanon
  have hb : checkIfBanned banned email = true := by
    simpa [checkIfBanned] using hban
  cases hres : (GetSession st cookie now).1 with
  | ok s => exact absurd hres (hanon s)
  | noSession => simp [LoginHandler, hres, hsnd, hb]
  | errNoRows => simp [LoginHandler, hres, hsnd, hb]
  | errExpired => simp [LoginHandler, hres, hsnd, hb]

/-- Witness for C8: banned email with the correct password and an
all-accepting verifier still only gets the ban message. -/
theorem LoginHandler_banned_blocks_login_witness :
    LoginHandler [⟨1, "bad@x.com", some "eve", some "hash", "user"⟩]
      ["bad@x.com"] [] none true "bad@x.com" "correct-password" false
      (fun _ _ => true) "uuid-1" true none 0 =
    (.loginPage "Bu kullanici banlanmis.", []) :=
  LoginHandler_banned_blocks_login
    [⟨1, "bad@x.com", some "eve", some "hash", "user"⟩] ["bad@x.com"] [] none
    "bad@x.com" "correct-password" false (fun _ _ => true) "uuid-1" true none 0
    (by intro s h; simp [GetSession] at h) (by decide)

/-- C9, counterexample.  A Google-callback registration for display name
`John Doe` stores the username `johndoe` — lower-cased, spaces removed,
but with NO random alphanumeric tag: no tag string can make
`lowerNoSpaces "John Doe" ++ "_" ++ tag` equal to it. -/
theorem google_callback_username_lacks_tag :
    (HandleGoogleCallback "n" true [] [] "n" true
        (some ("a@x.com", "John Doe")) 1 0).2.1 =
      [⟨1, "a@x.com", some "johndoe", none, "user"⟩] ∧
    ¬ ∃ tag : String, "johndoe" = lowerNoSpaces "John Doe" ++ "_" ++ tag := by
  constructor
  · decide
  · rintro ⟨tag, h⟩
    have hln : lowerNoSpaces "John Doe" = "johndoe" := by decide
    rw [hln] at h
    have hl := congrArg String.length h
    simp only [String.length_append] at hl
    have h7 : ("johndoe" : String).length = 7 := by decide
    have h1 : ("_" : String).length = 1 := by decide
    rw [h7, h1] at hl
    omega

/-- C9, amended.  For a fresh email, the GitHub callback, the Facebook
callback and the Google branch of `registerUser` all store the username
`lowerNoSpaces name ++ "_" ++ tag` (lower-cased display name, spaces
removed, 5-character random tag); the Google callback's registration
branch stores just `lowerNoSpaces name`, with no tag. -/
theorem federated_username_derivation
    (users : List UserRow) (st : List Session) (nonce email name tag : String)
    (nextId now : Int)
    (hfresh : users.find? (fun u => u.email == email) = none) :
    (HandleGitHubCallback true users st true (some (email, name)) tag
        nextId now).2.1 =
      users ++ [⟨nextId, email, some (lowerNoSpaces name ++ "_" ++ tag),
        none, "user"⟩] ∧
    (HandleFacebookCallback users st true (some (email, name)) tag
        nextId now).2.1 =
      users ++ [⟨nextId, email, some (lowerNoSpaces name ++ "_" ++ tag),
        none, "user"⟩] ∧
    (registerUser users st email true "" "" true (some (email, name)) tag
        (fun p => p) nextId now).2.1 =
      users ++ [⟨nextId, email, some (lowerNoSpaces name ++ "_" ++ tag),
        none, "user"⟩] ∧
    (HandleGoogleCallback nonce true users st nonce true (some (email, name))
        nextId now).2.1 =
      users ++ [⟨nextId, email, some (lowerNoSpaces name), none, "user"⟩] := by
  refine ⟨?_, ?_, ?_, ?_⟩ <;>
    simp [HandleGitHubCallback, HandleFacebookCallback, registerUser,
      HandleGoogleCallback, hfresh]

/-- Witness for C9's amended theorem at a concrete fresh email. -/
theorem federated_username_derivation_witness :
    (HandleGitHubCallback true [] [] true (some ("a@x.com", "John Doe"))
        "ab1cd" 1 0).2.1 =
      [⟨1, "a@x.com", some (lowerNoSpaces "John Doe" ++ "_" ++ "ab1cd"),
        none, "user"⟩] ∧
    (HandleFacebookCallback [] [] true (some ("a@x.com", "John Doe"))
        "ab1cd" 1 0).2.1 =
      [⟨1, "a@x.com", some (lowerNoSpaces "John Doe" ++ "_" ++ "ab1cd"),
        none, "user"⟩] ∧
    (registerUser [] [] "a@x.com" true "" "" true
        (some ("a@x.com", "John Doe")) "ab1cd" (fun p => p) 1 0).2.1 =
      [⟨1, "a@x.com", some (lowerNoSpaces "John Doe" ++ "_" ++ "ab1cd"),
        none, "user"⟩] ∧
    (HandleGoogleCallback "n" true [] [] "n" true
        (some ("a@x.com", "John Doe")) 1 0).2.1 =
      [⟨1, "a@x.com", some (lowerNoSpaces "John Doe"), none, "user"⟩] := by
  have h := federated_username_derivation [] [] "n" "a@x.com" "John Doe"
    "ab1cd" 1 0 (by decide)
  simpa using h

lemma pickPrimaryVerified_eq_of_find (l : List GitHubEmail)
    (entry : GitHubEmail) (acc : String)
    (h : l.find? (fun e => e.primary && e.verified) = some entry) :
    pickPrimaryVerified l acc = entry.email := by
  induction l generalizing acc with
  | nil => simp at h
  | cons e rest ih =>
    by_cases hp : (e.primary && e.verified) = true
    · rw [@List.find?_cons_of_pos _ (fun x => x.primary && x.verified) e rest
        (by simpa using hp)] at h
      cases h
      simp [pickPrimaryVerified, hp]
    · rw [Bool.not_eq_true] at hp
      rw [@List.find?_cons_of_neg _ (fun x => x.primary && x.verified) e rest
        (by simp [hp])] at h
      simpa [pickPrimaryVerified, hp] using ih acc h

/-- C10 (confirmed).  If the primary GitHub profile response carries a
non-empty email, `getEmailAndNameFromGitHub` makes no call to the
`/user/emails` endpoint (count 0, result independent of that oracle); if
the primary email is empty, exactly one secondary call is made (count 1)
and the email of the first entry with `primary = true` and
`verified = true` is selected. -/
theorem github_email_primary_fallback
    (name primaryEmail : String) (emailsResp : Option (List GitHubEmail))
    (emails : List GitHubEmail) (entry : GitHubEmail)
    (h1 : primaryEmail ≠ "")
    (hfind : emails.find? (fun e => e.primary && e.verified) = some entry) :
    getEmailAndNameFromGitHub (some (primaryEmail, name)) emailsResp =
      .ok ((primaryEmail, name), 0) ∧
    getEmailAndNameFromGitHub (some ("", name)) (some emails) =
      .ok ((entry.email, name), 1) := by
  constructor
  · simp [getEmailAndNameFromGitHub, h1]
  · simp [getEmailAndNameFromGitHub,
      pickPrimaryVerified_eq_of_find emails entry "" hfind]

/-- Witness for C10: a profile with an email makes zero secondary calls;
an empty-email profile picks the primary+verified entry (skipping an
unverified one) in one secondary call. -/
theorem github_email_primary_fallback_witness :
    getEmailAndNameFromGitHub (some ("seen@x.com", "Octo"))
        (some [⟨"other@x.com", true, true⟩]) =
      .ok (("seen@x.com", "Octo"), 0) ∧
    getEmailAndNameFromGitHub (some ("", "Octo"))
        (some [⟨"un@x.com", true, false⟩, ⟨"ok@x.com", true, true⟩]) =
      .ok (("ok@x.com", "Octo"), 1) :=
  github_email_primary_fallback "Octo" "seen@x.com"
    (some [⟨"other@x.com", true, true⟩])
    [⟨"un@x.com", true, false⟩, ⟨"ok@x.com", true, true⟩]
    ⟨"ok@x.com", true, true⟩ (by decide) (by decide)

end Forum
